import Mathlib

/-!
Verification of the Silverman critical-bandwidth implementation
(`src/Silverman.ipynb`) against its design description.

The notebook's numerically meaningful code consists of four functions:
`find_maxima`, `binary_search`, `find_critical_value` and `bootstrap`,
operating on a univariate sample.  The kernel-density estimator
(`sns.kdeplot` / `scipy.stats.gaussian_kde`), the extrema detector
(`scipy.signal.argrelmax`) and the KDE resampler are external
collaborators, modelled here as an oracle structure `Collab`.  Real
observations and bandwidths are embedded as rationals; the matplotlib
figure that `find_maxima` manipulates is threaded explicitly as a list
of plotted lines.
-/

namespace Silverman

attribute [local semireducible] Rat.mul Rat.add Rat.sub Rat.inv Rat.ofScientific

/-- Python list indexing `xs[i]`: a negative index `i` counts from the end
of the list (`xs[-1]` is the last element).  The notebook only ever
indexes in range, so the default value `0` is never produced on the
executions modelled here. -/
def pyGet (xs : List ℚ) (i : Int) : ℚ :=
  if i < 0 then xs.getD (xs.length - (-i).toNat) 0 else xs.getD i.toNat 0

/-- Embedding of `np.arange(0, stop, step)`: the values `i * step` for
`0 ≤ i` with `i * step < stop`.  numpy materialises this as
`ceil(stop / step)` elements (for `step > 0`), each equal to `i * step`. -/
def np_arange (stop step : ℚ) : List ℚ :=
  (List.range (Int.toNat ⌈stop / step⌉)).map (fun i : ℕ => (i : ℚ) * step)

/-- The external collaborators consumed as black boxes by the notebook:

* `kdeLine data h` — the `(x_vals, y_vals)` polyline of the fitted KDE
  curve that `sns.kdeplot(data, bw=h)` draws, evaluated on its fixed
  internal grid;
* `argrelmax ys` — `scipy.signal.argrelmax(ys)[0].tolist()`, the indices
  of strict interior local maxima of `ys`;
* `kdeResample data h rng` — one draw
  `stats.gaussian_kde(dataset=data, bw_method=h).resample()[0]` together
  with the advanced state of the global random source (threaded
  explicitly, as randomness must be in a deterministic embedding). -/
structure Collab where
  kdeLine : List ℚ → ℚ → List ℚ × List ℚ
  argrelmax : List ℚ → List ℕ
  kdeResample : List ℚ → ℚ → ℕ → List ℚ × ℕ

/-- The 22-point chondrite meteorite dataset defined in the notebook. -/
def chondrites : List ℚ :=
  [20.77, 22.56, 22.71, 22.99, 26.39, 27.08, 27.32, 27.33, 27.57, 27.81,
   28.69, 29.36, 30.25, 31.89, 32.88, 33.23, 33.28, 33.40, 33.52, 33.83,
   33.95, 34.82]

/-- Embedding of `find_maxima(data, h)` with the global matplotlib figure
state (`fig`, the list of lines currently drawn) threaded explicitly:

```
plt.clf()
x_vals, y_vals = sns.kdeplot(data, bw=h).get_lines()[0].get_data()
maxima = signal.argrelmax(y_vals)[0].tolist()
maxima_centers = [x_vals[i] for i in maxima]
return len(maxima), maxima_centers
```

`plt.clf()` clears the figure, `sns.kdeplot` draws the KDE line onto it,
and `.get_lines()[0]` reads the first line back.  The returned value is
the pair `(len(maxima), maxima_centers)`; the second component of the
result is the figure state after the call. -/
def find_maxima (C : Collab) (data : List ℚ) (h : ℚ)
    (fig : List (List ℚ × List ℚ)) : (ℕ × List ℚ) × List (List ℚ × List ℚ) :=
  let fig1 : List (List ℚ × List ℚ) := []
  let fig2 := fig1 ++ [C.kdeLine data h]
  let xy := fig2.getD 0 ([], [])
  let x_vals := xy.1
  let y_vals := xy.2
  let maxima := C.argrelmax y_vals
  let maxima_centers := maxima.map (fun i => x_vals.getD i 0)
  ((maxima.length, maxima_centers), fig2)

/-- The mode count `find_maxima(data, h)[0]` as used by `binary_search`.
Because `find_maxima` begins with `plt.clf()`, its returned value does not
depend on the ambient figure state, so the empty figure is a
representative state. -/
def find_maxima_count (C : Collab) (data : List ℚ) (h : ℚ) : ℕ :=
  ((find_maxima C data h []).1).1

/-- The `while (start <= end) and (found==False)` loop of `binary_search`,
as a recursion over the probed index range.  `fin` models the Python
variable `end` (an `Int`, since `end = midpoint - 1` can reach `-1`).
A result of `some h` models the loop exiting with `found = True` and
`found_h = h`; `none` models exhausting `start <= end` with `found`
still `False`.

```
midpoint = int((start+end)/2)        # start+end >= 0 here: floor division
prop_h = searchList[midpoint]
if find_maxima(data, prop_h)[0] == k:
    check_h = searchList[midpoint-1]   # Python wraps to the end at midpoint == 0
    if find_maxima(data, check_h)[0] == k: end = midpoint - 1
    else: found_h = prop_h; found = True
elif find_maxima(data, prop_h)[0] > k: start = midpoint + 1
elif find_maxima(data, prop_h)[0] < k: end = midpoint - 1
```

The repeated `find_maxima(data, prop_h)[0]` calls of the `elif` chain all
return the same value (`find_maxima`'s value ignores the figure state),
so the count is evaluated once per probe. -/
def bsLoop (count : ℚ → ℕ) (searchList : List ℚ) (k : ℕ)
    (start : ℕ) (fin : Int) : Option ℚ :=
  if hle : (start : Int) ≤ fin then
    let midpoint : ℕ := (start + fin.toNat) / 2
    let prop_h := searchList.getD midpoint 0
    if count prop_h = k then
      let check_h := pyGet searchList ((midpoint : Int) - 1)
      if count check_h = k then
        bsLoop count searchList k start ((midpoint : Int) - 1)
      else some prop_h
    else if count prop_h > k then
      bsLoop count searchList k (midpoint + 1) fin
    else
      bsLoop count searchList k start ((midpoint : Int) - 1)
  else none
termination_by (fin + 1 - (start : Int)).toNat
decreasing_by
  all_goals simp_wf
  all_goals omega

/-- The loop of `binary_search(data, searchMax, searchStep, k)` run from
its initial state `searchList = np.arange(0, searchMax, searchStep)`,
`start = 0`, `end = len(searchList) - 1`: `some h` is a successful search
(`found = True` with `found_h = h`), `none` means the range was exhausted. -/
def binary_searchR (C : Collab) (data : List ℚ)
    (searchMax searchStep : ℚ) (k : ℕ) : Option ℚ :=
  let searchList := np_arange searchMax searchStep
  bsLoop (find_maxima_count C data) searchList k 0 ((searchList.length : Int) - 1)

/-- Embedding of `binary_search(data, searchMax, searchStep, k)`: the
function initialises `found_h = 12345` and returns `found_h`, so an
exhausted search yields the literal number `12345`. -/
def binary_search (C : Collab) (data : List ℚ)
    (searchMax searchStep : ℚ) (k : ℕ) : ℚ :=
  match binary_searchR C data searchMax searchStep k with
  | some h => h
  | none => 12345

/-- Embedding of `find_critical_value(data, searchMax, searchStep, k)`,
with the global random source threaded through `rng`:

```
h_crit = binary_search(data, searchMax, searchStep, k)
X = stats.gaussian_kde(dataset=data, bw_method=h_crit).resample()[0]
new_h_crit = binary_search(X, searchMax, searchStep, k)
return new_h_crit
``` -/
def find_critical_value (C : Collab) (data : List ℚ)
    (searchMax searchStep : ℚ) (k : ℕ) (rng : ℕ) : ℚ × ℕ :=
  let h_crit := binary_search C data searchMax searchStep k
  let XR := C.kdeResample data h_crit rng
  let new_h_crit := binary_search C XR.1 searchMax searchStep k
  (new_h_crit, XR.2)

/-- The `hlist` accumulated by the loop of
`bootstrap(data, searchMax, searchStep, k, num_simulations)`:

```
for i in range(0, num_simulations):
    hlist = hlist + [find_critical_value(chondrites, 10, 0.01, 2)]
```

The loop body references the global `chondrites` and the literals
`10, 0.01, 2`; the `data`, `searchMax`, `searchStep` and `k` parameters
of `bootstrap` are never consulted (they are received here only to mirror
`bootstrap`'s signature).  The random source state is threaded through
the iterations. -/
def bootstrap_hlist (C : Collab) (data : List ℚ)
    (searchMax searchStep : ℚ) (k : ℕ) (num_simulations : ℕ) (rng : ℕ) :
    List ℚ × ℕ :=
  (List.range num_simulations).foldl
    (fun acc _ =>
      let r := find_critical_value C chondrites 10 0.01 2 acc.2
      (acc.1 ++ [r.1], r.2))
    ([], rng)

/-- Embedding of `bootstrap(data, searchMax, searchStep, k, num_simulations)`
(default `num_simulations = 100`).  After the loop the function executes
`return hlist, modesList`; the only line defining `modesList`
(`modesList = [find_maxima(chondrites, h)[0] for h in hlist]`) is
commented out, so the name is undefined and the call raises a
`NameError` instead of returning the pair. -/
def bootstrap (C : Collab) (data : List ℚ)
    (searchMax searchStep : ℚ) (k : ℕ) (num_simulations : ℕ) (rng : ℕ) :
    Except String (List ℚ × List ℕ) :=
  let _hlist := (bootstrap_hlist C data searchMax searchStep k num_simulations rng).1
  Except.error ("NameError: name modesList is not defined")

/-- Model of the extrema collaborator `scipy.signal.argrelmax` on a value
sequence: the indices `i` of strict interior local maxima,
`ys[i-1] < ys[i] > ys[i+1]`. -/
def argrelmaxModel (ys : List ℚ) : List ℕ :=
  (List.range ys.length).filter
    (fun i => decide (0 < i ∧ i + 1 < ys.length ∧
      ys.getD (i - 1) 0 < ys.getD i 0 ∧ ys.getD (i + 1) 0 < ys.getD i 0))

/-- A collaborator whose fitted KDE curve has exactly one interior maximum
at every bandwidth: the mode count is `1` for every probed `h`
(a clearly unimodal sample far from splitting). -/
def unimodalCollab : Collab :=
  ⟨fun _ _ => ([0, 1, 2], [0, 1, 0]), argrelmaxModel, fun _ _ rng => ([], rng)⟩

/-- A collaborator whose fitted KDE curve has two interior maxima for
`h ≤ 0` and one for `h > 0`: the mode count `2, 2, …, 1, 1, …` is
non-increasing in the bandwidth. -/
def stepCollab : Collab :=
  ⟨fun _ h => if h ≤ 0 then ([0, 1, 2, 3, 4], [0, 1, 0, 1, 0])
              else ([0, 1, 2], [0, 1, 0]),
   argrelmaxModel, fun _ _ rng => ([], rng)⟩

example : argrelmaxModel [0, 1, 0, 1, 0] = [1, 3] := by decide

example : find_maxima_count unimodalCollab chondrites 5 = 1 := by decide

example : np_arange 2 1 = [0, 1] := by decide

example : binary_search unimodalCollab chondrites 2 1 1 = 12345 := by
  simp +decide [binary_search, binary_searchR, bsLoop]

example : binary_searchR stepCollab chondrites 2 1 1 = some 1 := by
  simp +decide [binary_searchR, bsLoop]

example : binary_searchR stepCollab chondrites 2 1 2 = some 0 := by
  simp +decide [binary_searchR, bsLoop]

/-- Python indexing with a non-negative index is ordinary indexing. -/
theorem pyGet_ofNonneg (xs : List ℚ) (i : Int) (hi : 0 ≤ i) :
    pyGet xs i = xs.getD i.toNat 0 := by
  simp [pyGet, not_lt.mpr hi]

/-- The element at index `i` of `np.arange(0, stop, step)` is `i * step`. -/
theorem np_arange_getD (stop step : ℚ) (i : ℕ)
    (hi : i < (np_arange stop step).length) :
    (np_arange stop step).getD i 0 = (i : ℚ) * step := by
  unfold np_arange at hi ⊢
  rw [List.getD_eq_getElem _ _ hi, List.getElem_map, List.getElem_range]

/-- One iteration of the `binary_search` loop, for a state with
`start <= end`: the guarded body of the `while` loop as a single
conditional. -/
theorem bsLoop_step (count : ℚ → ℕ) (searchList : List ℚ) (k : ℕ)
    (start : ℕ) (fin : Int) (hle : (start : Int) ≤ fin) :
    bsLoop count searchList k start fin =
      (if count (searchList.getD ((start + fin.toNat) / 2) 0) = k then
        if count (pyGet searchList ((((start + fin.toNat) / 2 : ℕ) : Int) - 1)) = k then
          bsLoop count searchList k start ((((start + fin.toNat) / 2 : ℕ) : Int) - 1)
        else some (searchList.getD ((start + fin.toNat) / 2) 0)
      else if count (searchList.getD ((start + fin.toNat) / 2) 0) > k then
        bsLoop count searchList k ((start + fin.toNat) / 2 + 1) fin
      else
        bsLoop count searchList k start ((((start + fin.toNat) / 2 : ℕ) : Int) - 1)) := by
  conv_lhs => rw [bsLoop]
  rw [dif_pos hle]

/-- Inversion of a successful run of the `binary_search` loop: `found` was
set at some in-range probed index `mid`, whose bandwidth is the result and
yields exactly `k` modes, while the bandwidth at Python index `mid - 1`
does not. -/
theorem bsLoop_eq_some (count : ℚ → ℕ) (grid : List ℚ) (k : ℕ) (h : ℚ) :
    ∀ (n : ℕ) (start : ℕ) (fin : Int), (fin + 1 - (start : Int)).toNat ≤ n →
      fin < (grid.length : Int) →
      bsLoop count grid k start fin = some h →
      ∃ mid : ℕ, mid < grid.length ∧ h = grid.getD mid 0 ∧
        count (grid.getD mid 0) = k ∧ count (pyGet grid ((mid : Int) - 1)) ≠ k := by
  intro n
  induction n with
  | zero =>
    intro start fin hn hlen heq
    have hgt : ¬ ((start : Int) ≤ fin) := by omega
    rw [bsLoop] at heq
    simp [hgt] at heq
  | succ n ih =>
    intro start fin hn hlen heq
    by_cases hle : (start : Int) ≤ fin
    · rw [bsLoop_step count grid k start fin hle] at heq
      have hb : start ≤ (start + fin.toNat) / 2 ∧ (start + fin.toNat) / 2 ≤ fin.toNat := by
        omega
      split_ifs at heq with h1 h2 h3
      · exact ih start ((((start + fin.toNat) / 2 : ℕ) : Int) - 1) (by omega) (by omega) heq
      · exact ⟨(start + fin.toNat) / 2, by omega, (Option.some.inj heq).symm, h1, h2⟩
      · exact ih ((start + fin.toNat) / 2 + 1) fin (by omega) hlen heq
      · exact ih start ((((start + fin.toNat) / 2 : ℕ) : Int) - 1) (by omega) (by omega) heq
    · rw [bsLoop] at heq
      simp [hle] at heq

/-- C8: `find_maxima` is deterministic in the sample and the bandwidth:
its returned mode count and mode locations are identical across any two
calls with identical inputs, with no dependence on the hidden matplotlib
figure state (which `plt.clf()` clears before it is read). -/
theorem find_maxima_deterministic (C : Collab) (data : List ℚ) (h : ℚ)
    (fig₁ fig₂ : List (List ℚ × List ℚ)) :
    (find_maxima C data h fig₁).1 = (find_maxima C data h fig₂).1 := rfl

/-- C6: each iteration of the `binary_search` loop follows the specified
step policy at the probed index `midpoint = (start + end) div 2`: a mode
count above `k` continues in the upper half (`start = midpoint + 1`), a
count below `k` continues in the lower half (`end = midpoint - 1`), and a
count equal to `k` whose previous grid point (`midpoint ≥ 1`) also yields
`k` continues in the lower half. -/
theorem binary_search_step_policy (C : Collab) (data : List ℚ)
    (searchMax searchStep : ℚ) (k : ℕ) (start : ℕ) (fin : Int)
    (hle : (start : Int) ≤ fin) :
    (k < find_maxima_count C data
        ((np_arange searchMax searchStep).getD ((start + fin.toNat) / 2) 0) →
      bsLoop (find_maxima_count C data) (np_arange searchMax searchStep) k start fin
        = bsLoop (find_maxima_count C data) (np_arange searchMax searchStep) k
            ((start + fin.toNat) / 2 + 1) fin) ∧
    (find_maxima_count C data
        ((np_arange searchMax searchStep).getD ((start + fin.toNat) / 2) 0) < k →
      bsLoop (find_maxima_count C data) (np_arange searchMax searchStep) k start fin
        = bsLoop (find_maxima_count C data) (np_arange searchMax searchStep) k
            start ((((start + fin.toNat) / 2 : ℕ) : Int) - 1)) ∧
    (find_maxima_count C data
        ((np_arange searchMax searchStep).getD ((start + fin.toNat) / 2) 0) = k →
      1 ≤ (start + fin.toNat) / 2 →
      find_maxima_count C data
        ((np_arange searchMax searchStep).getD ((start + fin.toNat) / 2 - 1) 0) = k →
      bsLoop (find_maxima_count C data) (np_arange searchMax searchStep) k start fin
        = bsLoop (find_maxima_count C data) (np_arange searchMax searchStep) k
            start ((((start + fin.toNat) / 2 : ℕ) : Int) - 1)) := by
  rw [bsLoop_step _ _ _ _ _ hle]
  refine ⟨?_, ?_, ?_⟩
  · intro hgt
    rw [if_neg (by omega), if_pos hgt]
  · intro hlt
    rw [if_neg (by omega), if_neg (by omega)]
  · intro hk h1 hprev
    have hpg : pyGet (np_arange searchMax searchStep)
        ((((start + fin.toNat) / 2 : ℕ) : Int) - 1)
        = (np_arange searchMax searchStep).getD ((start + fin.toNat) / 2 - 1) 0 := by
      rw [pyGet_ofNonneg _ _ (by omega)]
      congr 1
      omega
    rw [if_pos hk, hpg, if_pos hprev]

theorem binary_search_step_policy_witness :
    bsLoop (find_maxima_count unimodalCollab chondrites) (np_arange 3 1) 0 0 2
      = bsLoop (find_maxima_count unimodalCollab chondrites) (np_arange 3 1) 0
          ((0 + (2 : Int).toNat) / 2 + 1) 2 :=
  (binary_search_step_policy unimodalCollab chondrites 3 1 0 0 2 (by decide)).1
    (by decide)

/-- C10: an iteration of the `binary_search` loop on a live index range
either terminates the loop by setting `found` or strictly shrinks the
remaining index interval `[start, end]`, so the loop terminates. -/
theorem bsLoop_terminates_or_shrinks (C : Collab) (data : List ℚ)
    (searchMax searchStep : ℚ) (k : ℕ) (start : ℕ) (fin : Int)
    (hmax : 0 < searchMax) (hstep : 0 < searchStep)
    (hgrid : np_arange searchMax searchStep ≠ []) (hk : 1 ≤ k)
    (hle : (start : Int) ≤ fin) :
    (∃ h, bsLoop (find_maxima_count C data) (np_arange searchMax searchStep)
        k start fin = some h) ∨
    (∃ (s : ℕ) (f : Int),
      bsLoop (find_maxima_count C data) (np_arange searchMax searchStep) k start fin
        = bsLoop (find_maxima_count C data) (np_arange searchMax searchStep) k s f ∧
      (f + 1 - (s : Int)).toNat < (fin + 1 - (start : Int)).toNat) := by
  rw [bsLoop_step _ _ _ _ _ hle]
  by_cases h1 : find_maxima_count C data
      ((np_arange searchMax searchStep).getD ((start + fin.toNat) / 2) 0) = k
  · rw [if_pos h1]
    by_cases h2 : find_maxima_count C data
        (pyGet (np_arange searchMax searchStep)
          ((((start + fin.toNat) / 2 : ℕ) : Int) - 1)) = k
    · rw [if_pos h2]
      right
      exact ⟨start, (((start + fin.toNat) / 2 : ℕ) : Int) - 1, rfl, by omega⟩
    · rw [if_neg h2]
      left
      exact ⟨(np_arange searchMax searchStep).getD ((start + fin.toNat) / 2) 0, rfl⟩
  · rw [if_neg h1]
    by_cases h2 : find_maxima_count C data
        ((np_arange searchMax searchStep).getD ((start + fin.toNat) / 2) 0) > k
    · rw [if_pos h2]
      right
      exact ⟨(start + fin.toNat) / 2 + 1, fin, rfl, by omega⟩
    · rw [if_neg h2]
      right
      exact ⟨start, (((start + fin.toNat) / 2 : ℕ) : Int) - 1, rfl, by omega⟩

theorem bsLoop_terminates_or_shrinks_witness :
    (∃ h, bsLoop (find_maxima_count unimodalCollab chondrites) (np_arange 2 1)
        1 0 1 = some h) ∨
    (∃ (s : ℕ) (f : Int),
      bsLoop (find_maxima_count unimodalCollab chondrites) (np_arange 2 1) 1 0 1
        = bsLoop (find_maxima_count unimodalCollab chondrites) (np_arange 2 1) 1 s f ∧
      (f + 1 - (s : Int)).toNat < ((1 : Int) + 1 - ((0 : ℕ) : Int)).toNat) :=
  bsLoop_terminates_or_shrinks unimodalCollab chondrites 2 1 1 0 1
    (by decide) (by decide) (by decide) (by decide) (by decide)

/-- The mode count reported through `stepCollab` is `2` for bandwidths
`h ≤ 0` and `1` for `h > 0`: non-increasing in the bandwidth. -/
theorem stepCollab_count (data : List ℚ) (h : ℚ) :
    find_maxima_count stepCollab data h = if h ≤ 0 then 2 else 1 := by
  by_cases hh : h ≤ 0 <;>
    simp +decide [find_maxima_count, find_maxima, stepCollab, hh]

/-- C5 (amended): when `binary_search` terminates successfully with a
found bandwidth `h` that is not the first grid point (`h ≠ 0`), the mode
count at `h` is exactly `k` and the mode count at the previous grid point
`h - searchStep` differs from `k`. -/
theorem binary_search_found_minimality (C : Collab) (data : List ℚ)
    (searchMax searchStep : ℚ) (k : ℕ) (h : ℚ)
    (hstep : 0 < searchStep)
    (hfound : binary_searchR C data searchMax searchStep k = some h)
    (hne : h ≠ 0) :
    find_maxima_count C data h = k ∧
    find_maxima_count C data (h - searchStep) ≠ k := by
  unfold binary_searchR at hfound
  obtain ⟨mid, hmlt, hh, hck, hcp⟩ :=
    bsLoop_eq_some (find_maxima_count C data) (np_arange searchMax searchStep) k h
      ((np_arange searchMax searchStep).length) 0
      (((np_arange searchMax searchStep).length : Int) - 1)
      (by omega) (by omega) hfound
  rw [np_arange_getD _ _ _ hmlt] at hh hck
  have hmid1 : 1 ≤ mid := by
    rcases Nat.eq_zero_or_pos mid with h0 | h1
    · subst h0
      simp at hh
      exact absurd hh hne
    · exact h1
  have hpg : pyGet (np_arange searchMax searchStep) ((mid : Int) - 1)
      = (np_arange searchMax searchStep).getD (mid - 1) 0 := by
    rw [pyGet_ofNonneg _ _ (by omega)]
    congr 1
    omega
  rw [hpg, np_arange_getD _ _ _ (by omega)] at hcp
  have hcast : ((mid - 1 : ℕ) : ℚ) * searchStep = h - searchStep := by
    rw [Nat.cast_sub hmid1, hh]
    push_cast
    ring
  rw [hcast] at hcp
  exact ⟨hh ▸ hck, hcp⟩

theorem binary_search_found_minimality_witness :
    (0 : ℚ) < 1 ∧ (1 : ℚ) ≠ 0 ∧
    binary_searchR stepCollab chondrites 2 1 1 = some 1 ∧
    (find_maxima_count stepCollab chondrites 1 = 1 ∧
      find_maxima_count stepCollab chondrites (1 - 1) ≠ 1) := by
  have hres : binary_searchR stepCollab chondrites 2 1 1 = some 1 := by
    simp +decide [binary_searchR, bsLoop]
  exact ⟨by norm_num, by norm_num, hres,
    binary_search_found_minimality stepCollab chondrites 2 1 1 1
      (by norm_num) hres (by norm_num)⟩

/-- C5, counterexample to the claim as stated: through `stepCollab` the
mode-count-vs-bandwidth relation is monotone (non-increasing), the search
for `k = 2` over the grid `[0, 1]` terminates successfully with found
bandwidth `h = grid[0] = 0`, the count at `h` is `k = 2` — and the count
at `h - searchStep = -1` is also `2`, not different from `k`: the claimed
minimality condition fails when the found bandwidth is the first grid
point, because the code compared against `searchList[-1]` (the last grid
element) instead of the point before `grid[0]`. -/
theorem binary_search_minimality_fails_at_grid_start :
    (0 : ℚ) < 1 ∧
    (∀ h₁ h₂ : ℚ, h₁ ≤ h₂ →
      find_maxima_count stepCollab chondrites h₂
        ≤ find_maxima_count stepCollab chondrites h₁) ∧
    binary_searchR stepCollab chondrites 2 1 2 = some 0 ∧
    find_maxima_count stepCollab chondrites 0 = 2 ∧
    ¬ (find_maxima_count stepCollab chondrites ((0 : ℚ) - 1) ≠ 2) := by
  refine ⟨by norm_num, ?_, ?_, by decide, ?_⟩
  · intro h₁ h₂ hle
    rw [stepCollab_count, stepCollab_count]
    split_ifs with a b
    · norm_num
    · exact absurd (hle.trans a) b
    · norm_num
    · norm_num
  · simp +decide [binary_searchR, bsLoop]
  · rw [not_ne_iff, stepCollab_count]
    norm_num

/-- C9 (amended): the bandwidth grid `np.arange(0, searchMax, searchStep)`
searched by `binary_search` has cardinality `⌈searchMax / searchStep⌉`
(the ceiling, which equals the claimed `⌊searchMax / searchStep⌋` exactly
when `searchStep` divides `searchMax`), holds `i * searchStep` at index
`i`, is strictly increasing, and is non-empty when
`searchMax / searchStep ≥ 1`. -/
theorem np_arange_grid_spec (searchMax searchStep : ℚ)
    (hmax : 0 < searchMax) (hstep : 0 < searchStep)
    (hratio : 1 ≤ searchMax / searchStep) :
    (np_arange searchMax searchStep).length = Int.toNat ⌈searchMax / searchStep⌉ ∧
    List.Pairwise (· < ·) (np_arange searchMax searchStep) ∧
    (∀ i, i < (np_arange searchMax searchStep).length →
      (np_arange searchMax searchStep).getD i 0 = (i : ℚ) * searchStep) ∧
    1 ≤ (np_arange searchMax searchStep).length := by
  refine ⟨by simp [np_arange], ?_, ?_, ?_⟩
  · unfold np_arange
    refine List.Pairwise.map _ ?_ (List.pairwise_lt_range _)
    intro a b hab
    exact mul_lt_mul_of_pos_right (by exact_mod_cast hab) hstep
  · intro i hi
    exact np_arange_getD _ _ _ hi
  · have hpos : 0 < searchMax / searchStep := by positivity
    have hceil : 0 < ⌈searchMax / searchStep⌉ := Int.ceil_pos.mpr hpos
    simp only [np_arange, List.length_map, List.length_range]
    omega

theorem np_arange_grid_spec_witness :
    ((0 : ℚ) < 2 ∧ (0 : ℚ) < 1 ∧ (1 : ℚ) ≤ 2 / 1) ∧
    ((np_arange 2 1).length = Int.toNat ⌈(2 : ℚ) / 1⌉ ∧
      List.Pairwise (· < ·) (np_arange 2 1) ∧
      (∀ i, i < (np_arange 2 1).length →
        (np_arange 2 1).getD i 0 = (i : ℚ) * 1) ∧
      1 ≤ (np_arange 2 1).length) :=
  ⟨by norm_num, np_arange_grid_spec 2 1 (by norm_num) (by norm_num) (by norm_num)⟩

/-- C9, counterexample to the claimed cardinality: for `searchMax = 3`,
`searchStep = 2` (valid parameters with ratio `3/2 ≥ 1`), the grid
`np.arange(0, 3, 2)` is `[0, 2]` with `2` elements, while
`⌊searchMax / searchStep⌋ = 1`. -/
theorem np_arange_cardinality_not_floor :
    (0 : ℚ) < 3 ∧ (0 : ℚ) < 2 ∧ (1 : ℚ) ≤ 3 / 2 ∧
    np_arange 3 2 = [0, 2] ∧
    (np_arange 3 2).length ≠ Int.toNat ⌊(3 : ℚ) / 2⌋ :=
  ⟨by norm_num, by norm_num, by norm_num, by decide, by decide⟩

/-- C1 (code behaviour at the grid start): with a sample reporting one
mode at every bandwidth and `k = 1` over the two-point grid
`np.arange(0, 2, 1) = [0, 1]`, the probe at `midpoint = 0` finds
`k` modes at `grid[0]`, but the previous-point check reads
`searchList[-1]` — which in Python wraps around to the LAST grid element —
also finds `k` modes there, and the search therefore sets `end = -1` and
exhausts, returning the `12345` sentinel instead of accepting `grid[0]`
immediately as the claim requires. -/
theorem binary_search_wraps_at_grid_start :
    find_maxima_count unimodalCollab chondrites ((np_arange 2 1).getD 0 0) = 1 ∧
    pyGet (np_arange 2 1) (-1) = (np_arange 2 1).getD 1 0 ∧
    find_maxima_count unimodalCollab chondrites (pyGet (np_arange 2 1) (-1)) = 1 ∧
    binary_searchR unimodalCollab chondrites 2 1 1 = none ∧
    binary_search unimodalCollab chondrites 2 1 1 = 12345 := by
  have hnone : binary_searchR unimodalCollab chondrites 2 1 1 = none := by
    simp +decide [binary_searchR, bsLoop]
  exact ⟨by decide, by decide, by decide, hnone, by rw [binary_search, hnone]⟩

/-- C2 (numeric placeholder): an exhausted search returns the plain
number `12345` (the initial value of `found_h`), and the very same number
is also returned as a genuinely found bandwidth on the grid
`np.arange(0, 24690, 12345) = [0, 12345]`, so the not-found outcome is a
numeric placeholder indistinguishable from a real bandwidth value, not an
explicit `NotFound`. -/
theorem binary_search_numeric_placeholder :
    binary_searchR unimodalCollab chondrites 2 1 5 = none ∧
    binary_search unimodalCollab chondrites 2 1 5 = 12345 ∧
    binary_searchR stepCollab chondrites 24690 12345 1 = some 12345 ∧
    binary_search stepCollab chondrites 24690 12345 1 = 12345 := by
  have hnone : binary_searchR unimodalCollab chondrites 2 1 5 = none := by
    simp +decide [binary_searchR, bsLoop]
  have hsome : binary_searchR stepCollab chondrites 24690 12345 1 = some 12345 := by
    simp +decide [binary_searchR, bsLoop]
  exact ⟨hnone, by rw [binary_search, hnone], hsome, by rw [binary_search, hsome]⟩

/-- C7 (no bandwidth validation): `find_maxima` contains no check of the
bandwidth; called with the non-positive bandwidths `-1` and `0` it passes
them straight to the KDE collaborator and returns an ordinary
`(count, locations)` report — no `InvalidBandwidth` error exists anywhere
in the code. -/
theorem find_maxima_accepts_nonpositive_bandwidth :
    ((-1 : ℚ) ≤ 0 ∧ (0 : ℚ) ≤ 0) ∧
    (find_maxima unimodalCollab chondrites (-1) []).1 = (1, [1]) ∧
    (find_maxima unimodalCollab chondrites 0 []).1 = (1, [1]) :=
  ⟨by norm_num, by decide, by decide⟩

/-- C3: `bootstrap` accumulates one recovered critical bandwidth per
iteration into `hlist` (which reaches length `num_simulations`), but its
final statement `return hlist, modesList` references `modesList`, whose
defining line is commented out, so every call raises a `NameError`
instead of returning the sequence. -/
theorem bootstrap_raises_nameerror (C : Collab) (data : List ℚ)
    (searchMax searchStep : ℚ) (k num_simulations rng : ℕ) :
    bootstrap C data searchMax searchStep k num_simulations rng
      = Except.error ("NameError: name modesList is not defined") ∧
    (bootstrap_hlist C data searchMax searchStep k num_simulations rng).1.length
      = num_simulations := by
  constructor
  · rfl
  · have H : ∀ (l : List ℕ) (acc : List ℚ × ℕ) (f : List ℚ × ℕ → ℕ → List ℚ × ℕ),
        (∀ a x, (f a x).1.length = a.1.length + 1) →
        (l.foldl f acc).1.length = acc.1.length + l.length := by
      intro l
      induction l with
      | nil =>
        intro acc f hf
        simp
      | cons a t ih =>
        intro acc f hf
        rw [List.foldl_cons, ih (f acc a) f hf, hf]
        simp only [List.length_cons]
        omega
    unfold bootstrap_hlist
    refine (H _ _ _ ?_).trans (by simp)
    intro a x
    simp

/-- C4: the loop body of `bootstrap` calls
`find_critical_value(chondrites, 10, 0.01, 2)` — the global `chondrites`
dataset and hard-coded parameters — so the sequence it accumulates is
identical for any two choices of the `data`, `searchMax`, `searchStep`
and `k` arguments, and a single iteration records exactly the value of
`find_critical_value` at those fixed arguments. -/
theorem bootstrap_ignores_arguments (C : Collab) (data₁ data₂ : List ℚ)
    (searchMax₁ searchStep₁ searchMax₂ searchStep₂ : ℚ) (k₁ k₂ n rng : ℕ) :
    bootstrap_hlist C data₁ searchMax₁ searchStep₁ k₁ n rng
      = bootstrap_hlist C data₂ searchMax₂ searchStep₂ k₂ n rng ∧
    (bootstrap_hlist C data₁ searchMax₁ searchStep₁ k₁ 1 rng).1
      = [(find_critical_value C chondrites 10 0.01 2 rng).1] := by
  constructor
  · rfl
  · simp [bootstrap_hlist, List.range_succ]

end Silverman
